import Mathlib

/-!
Shallow embedding of the IDEAS-RMS demand forecasting and dynamic pricing
engine (src/services/forecasting.py and src/services/pricing_engine.py).

Modelling conventions:
* Python floats are modelled as rationals (exact real arithmetic).
* Dates are proleptic Gregorian ordinals (ℤ), as in Python's date.toordinal;
  date.weekday() is (ordinal - 1) % 7 with Monday = 0 (ordinal 1 is a Monday).
  The month / day-of-month decomposition of an ordinal is kept abstract in a
  Calendar record, since no property below depends on Gregorian arithmetic.
* The SQLAlchemy session is modelled as an explicit Store of record lists;
  query(...).filter_by(...).all() is List.filter, .first() is List.find?
  (insertion order), .count() is the length of the filter.
* Methods are functions of an explicit engine value; a method that mutates
  self returns an updated engine, one that does not returns its result (for
  calculate_dynamic_price the unchanged engine is returned alongside the
  result, so that the absence of mutation is a provable statement).
-/

namespace RMS

/-- Numeric clip, mirroring np.clip(x, lo, hi) = minimum(hi, maximum(x, lo)). -/
def clip (x lo hi : ℚ) : ℚ := min hi (max x lo)

/-- Arithmetic mean, mirroring np.mean; every call site guards against the
    empty list (ℚ division by zero yields 0, where NumPy would yield NaN). -/
def mean (l : List ℚ) : ℚ := l.sum / l.length

/-- Population variance, mirroring np.var. -/
def variance (l : List ℚ) : ℚ := mean (l.map (fun x => (x - mean l) ^ 2))

/-- Insert into an ascending-sorted list. -/
def insertSorted (x : ℚ) : List ℚ → List ℚ
  | [] => [x]
  | y :: ys => if x ≤ y then x :: y :: ys else y :: insertSorted x ys

/-- Insertion sort, ascending. -/
def sortQ (l : List ℚ) : List ℚ := l.foldr insertSorted []

/-- Median as np.median computes it: sort ascending; an odd-length list takes
    the middle element, an even-length list averages the two middle elements. -/
def median (l : List ℚ) : ℚ :=
  let s := sortQ l
  let n := s.length
  if n % 2 = 1 then s.getD (n / 2) 0
  else (s.getD (n / 2 - 1) 0 + s.getD (n / 2) 0) / 2

/-- Round to the nearest integer, ties to the even integer, mirroring Python's
    round on exact values. -/
def roundHalfEven (x : ℚ) : ℤ :=
  if x - Int.floor x < 1 / 2 then Int.floor x
  else if 1 / 2 < x - Int.floor x then Int.floor x + 1
  else if Int.floor x % 2 = 0 then Int.floor x else Int.floor x + 1

/-- Python round(x, n): round to n decimal digits. -/
def roundTo (n : ℕ) (x : ℚ) : ℚ := (roundHalfEven (x * 10 ^ n) : ℚ) / 10 ^ n

/-- Python date.weekday(): Monday = 0 … Sunday = 6. -/
def weekday (d : ℤ) : ℤ := (d - 1) % 7

/-- Calendar decomposition of an ordinal date into month and day-of-month, as
    Python date objects expose it. Kept abstract (no claim depends on the
    Gregorian rules); witnesses instantiate it with a concrete function. -/
structure Calendar where
  month : ℤ → ℤ
  dayOfMonth : ℤ → ℤ

/-- RoomType row: room_types table (name, base_rate). -/
structure RoomType where
  name : String
  base_rate : ℚ
deriving DecidableEq

/-- Booking row; created_at is the date part of the creation timestamp. -/
structure Booking where
  room_type : String
  checkin : ℤ
  created_at : ℤ
deriving DecidableEq

/-- CompetitorRate row. -/
structure CompetitorRate where
  room_type : String
  date : ℤ
  rate : ℚ
  availability : Bool
deriving DecidableEq

/-- EventMultiplier row. -/
structure EventMultiplier where
  date : ℤ
  multiplier : ℚ
deriving DecidableEq

/-- Inventory row: one row per physical room unit; inventory count for a room
    type is the number of matching rows (query(...).count() in the source). -/
structure Inventory where
  room_type : String
deriving DecidableEq

/-- ForecastData row. -/
structure ForecastData where
  room_type : String
  date : ℤ
  forecasted_demand : ℚ
  created_at : ℤ
deriving DecidableEq

/-- The persistent store the engines read (the SQLite session's contents). -/
structure Store where
  room_types : List RoomType
  bookings : List Booking
  inventory : List Inventory
  competitor_rates : List CompetitorRate
  events : List EventMultiplier
  forecasts : List ForecastData
deriving DecidableEq

/-- Demand factor, line 125 of pricing_engine.py. -/
def demand_factor (alpha baseline_demand forecasted_demand : ℚ) : ℚ :=
  1 + alpha * (forecasted_demand - baseline_demand)

/-- Competitor factor, line 126 of pricing_engine.py. -/
def competitor_factor (beta competitor_index : ℚ) : ℚ :=
  1 + beta * (competitor_index - 1)

/-- Event factor, line 127 of pricing_engine.py. -/
def event_factor (delta event_multiplier : ℚ) : ℚ :=
  1 + delta * (event_multiplier - 1)

/-- Time discount factor, line 128 of pricing_engine.py. -/
def time_discount_factor (gamma time_factor : ℚ) : ℚ :=
  1 - gamma * time_factor

/-- Raw price, lines 131-132 of pricing_engine.py. -/
def raw_price (base_rate df cf ef tdf : ℚ) : ℚ :=
  base_rate * df * cf * ef * tdf

/-- PricingEngine object state: the session plus the tunable coefficients set
    in __init__ (mutable via update_coefficients). today models date.today(). -/
structure PricingEngine where
  store : Store
  today : ℤ
  alpha : ℚ := 0.3
  beta : ℚ := 0.25
  gamma : ℚ := 0.02
  delta : ℚ := 1
  baseline_demand : ℚ := 0.75
  max_lead_time : ℚ := 365
deriving DecidableEq

/-- Optional per-call coefficient overrides (the override_params dict). -/
structure OverrideParams where
  alpha : Option ℚ := none
  beta : Option ℚ := none
  gamma : Option ℚ := none
  delta : Option ℚ := none
deriving DecidableEq

namespace PricingEngine

/-- get_base_rate: stored base rate for the room type, defaulting to 300 when
    the query returns no row. -/
def get_base_rate (e : PricingEngine) (room_type : String) : ℚ :=
  match e.store.room_types.find? (fun r => r.name == room_type) with
  | some r => r.base_rate
  | none => 300

/-- Method _calculate_demand_fallback: average bookings on the same weekday in
    the past 4 weeks over the inventory count. booking_counts is built from
    range(1, 5) and always has four entries, so its emptiness guard is dead;
    it is kept to mirror the source. -/
def _calculate_demand_fallback (e : PricingEngine) (room_type : String)
    (target_date : ℤ) : ℚ :=
  let past_dates := (List.range 4).map (fun (k : ℕ) => target_date - 7 * ((k : ℤ) + 1))
  let booking_counts : List ℚ := past_dates.map (fun d =>
    ((e.store.bookings.filter
        (fun b => b.room_type == room_type && b.checkin == d)).length : ℚ))
  if booking_counts ≠ [] then
    let avg_bookings := mean booking_counts
    let total_rooms :=
      (e.store.inventory.filter (fun i => i.room_type == room_type)).length
    min (avg_bookings / max (total_rooms : ℚ) 1) 1
  else e.baseline_demand

/-- get_forecasted_demand: stored ForecastData row if any, else the booking
    pace fallback. -/
def get_forecasted_demand (e : PricingEngine) (room_type : String)
    (target_date : ℤ) : ℚ :=
  match e.store.forecasts.find?
      (fun f => f.room_type == room_type && f.date == target_date) with
  | some f => f.forecasted_demand
  | none => e._calculate_demand_fallback room_type target_date

/-- get_competitor_index: median available competitor rate over our base rate,
    defaulting to parity (1.0) when no rows, or no available rows, exist. -/
def get_competitor_index (e : PricingEngine) (room_type : String)
    (target_date : ℤ) : ℚ :=
  let base_rate := e.get_base_rate room_type
  let competitor_rates := e.store.competitor_rates.filter
    (fun c => c.room_type == room_type && c.date == target_date)
  if competitor_rates ≠ [] then
    let rates := (competitor_rates.filter (fun c => c.availability)).map
      (fun c => c.rate)
    if rates ≠ [] then median rates / base_rate else 1
  else 1

/-- get_event_multiplier: the stored multiplier for the date, else 1.0. -/
def get_event_multiplier (e : PricingEngine) (target_date : ℤ) : ℚ :=
  match e.store.events.find? (fun v => v.date == target_date) with
  | some v => v.multiplier
  | none => 1

/-- calculate_time_factor with the default lead_time_days=None: lead time from
    today, 0 for the past or same day, else min(lead/max_lead_time, 1) × 0.1. -/
def calculate_time_factor (e : PricingEngine) (target_date : ℤ) : ℚ :=
  let lead_time_days : ℤ := target_date - e.today
  if lead_time_days ≤ 0 then 0
  else min ((lead_time_days : ℚ) / e.max_lead_time) 1 * 0.1

/-- get_floor_ceiling: (base_rate × 0.7, base_rate × 1.5). -/
def get_floor_ceiling (e : PricingEngine) (room_type : String) : ℚ × ℚ :=
  let base_rate := e.get_base_rate room_type
  (base_rate * 0.7, base_rate * 1.5)

end PricingEngine

/-- Exact intermediate quantities of calculate_dynamic_price (lines 110-135 of
    pricing_engine.py), before the presentation rounding applied when the
    returned dict is built. -/
structure PriceCalc where
  alpha : ℚ
  beta : ℚ
  gamma : ℚ
  delta : ℚ
  base_rate : ℚ
  forecasted_demand : ℚ
  competitor_index : ℚ
  event_multiplier : ℚ
  time_factor : ℚ
  floor : ℚ
  ceiling : ℚ
  demand_factor : ℚ
  competitor_factor : ℚ
  event_factor : ℚ
  time_discount_factor : ℚ
  raw_price : ℚ
  final_price : ℚ
deriving DecidableEq

/-- Components sub-dict of the pricing result (rounded to 3 decimals). -/
structure PriceComponents where
  forecasted_demand : ℚ
  competitor_index : ℚ
  event_multiplier : ℚ
  time_factor : ℚ
  demand_factor : ℚ
  competitor_factor : ℚ
  event_factor : ℚ
  time_discount_factor : ℚ
deriving DecidableEq

/-- Coefficients sub-dict of the pricing result. -/
structure Coefficients where
  alpha : ℚ
  beta : ℚ
  gamma : ℚ
  delta : ℚ
deriving DecidableEq

/-- The dict returned by calculate_dynamic_price. -/
structure PriceResult where
  room_type : String
  date : ℤ
  base_rate : ℚ
  final_price : ℚ
  raw_price : ℚ
  floor : ℚ
  ceiling : ℚ
  components : PriceComponents
  coefficients : Coefficients
deriving DecidableEq

namespace PricingEngine

/-- Body of calculate_dynamic_price up to line 135: effective coefficients
    (override_params.get with the engine's values as defaults), the read of the
    base components, the four factors, raw_price and the clipped final price.
    demand_factor uses self.baseline_demand, which is not overridable. -/
def price_calc (e : PricingEngine) (room_type : String) (target_date : ℤ)
    (override_params : Option OverrideParams) : PriceCalc :=
  let alpha := match override_params with | some p => p.alpha.getD e.alpha | none => e.alpha
  let beta := match override_params with | some p => p.beta.getD e.beta | none => e.beta
  let gamma := match override_params with | some p => p.gamma.getD e.gamma | none => e.gamma
  let delta := match override_params with | some p => p.delta.getD e.delta | none => e.delta
  let base_rate := e.get_base_rate room_type
  let forecasted_demand := e.get_forecasted_demand room_type target_date
  let competitor_index := e.get_competitor_index room_type target_date
  let event_multiplier := e.get_event_multiplier target_date
  let time_factor := e.calculate_time_factor target_date
  let fc := e.get_floor_ceiling room_type
  let df := RMS.demand_factor alpha e.baseline_demand forecasted_demand
  let cf := RMS.competitor_factor beta competitor_index
  let ef := RMS.event_factor delta event_multiplier
  let tdf := RMS.time_discount_factor gamma time_factor
  let rp := RMS.raw_price base_rate df cf ef tdf
  { alpha := alpha, beta := beta, gamma := gamma, delta := delta,
    base_rate := base_rate, forecasted_demand := forecasted_demand,
    competitor_index := competitor_index, event_multiplier := event_multiplier,
    time_factor := time_factor, floor := fc.1, ceiling := fc.2,
    demand_factor := df, competitor_factor := cf, event_factor := ef,
    time_discount_factor := tdf, raw_price := rp,
    final_price := clip rp fc.1 fc.2 }

/-- calculate_dynamic_price. The method reads the coefficients (or the caller's
    overrides) into locals and never assigns to self, so the engine component
    of the state-passing translation is the input engine unchanged. In the
    returned dict, final_price and raw_price are rounded to 2 decimals and the
    components to 3, as in the source. -/
def calculate_dynamic_price (e : PricingEngine) (room_type : String)
    (target_date : ℤ) (override_params : Option OverrideParams) :
    PriceResult × PricingEngine :=
  let c := e.price_calc room_type target_date override_params
  ({ room_type := room_type, date := target_date, base_rate := c.base_rate,
     final_price := roundTo 2 c.final_price, raw_price := roundTo 2 c.raw_price,
     floor := c.floor, ceiling := c.ceiling,
     components := {
       forecasted_demand := roundTo 3 c.forecasted_demand,
       competitor_index := roundTo 3 c.competitor_index,
       event_multiplier := roundTo 3 c.event_multiplier,
       time_factor := roundTo 3 c.time_factor,
       demand_factor := roundTo 3 c.demand_factor,
       competitor_factor := roundTo 3 c.competitor_factor,
       event_factor := roundTo 3 c.event_factor,
       time_discount_factor := roundTo 3 c.time_discount_factor },
     coefficients := { alpha := c.alpha, beta := c.beta, gamma := c.gamma,
                       delta := c.delta } }, e)

/-- update_coefficients: the one method that does mutate the engine's stored
    coefficients (each argument None leaves its coefficient unchanged). -/
def update_coefficients (e : PricingEngine)
    (alpha beta gamma delta : Option ℚ) : PricingEngine :=
  { e with alpha := alpha.getD e.alpha, beta := beta.getD e.beta,
           gamma := gamma.getD e.gamma, delta := delta.getD e.delta }

end PricingEngine

/-- ForecastingEngine object state: the session, the clock, the calendar
    decomposition, the fitted-model predictor (see _ml_demand_forecast) and the
    parameters set in __init__. -/
structure ForecastingEngine where
  store : Store
  today : ℤ
  cal : Calendar
  mlPredict : List (List ℚ) → List ℚ → List ℚ → Option ℚ
  smoothing_alpha : ℚ := 0.3
  lookback_days : ℕ := 90

/-- One entry of the historical occupancy series (date, occupancy, bookings). -/
structure OccEntry where
  date : ℤ
  occupancy : ℚ
  bookings : ℕ
deriving DecidableEq

/-- Components sub-dict of a forecast result. -/
structure ForecastComponents where
  base_demand : ℚ
  seasonality_factor : ℚ
  trend_factor : ℚ
  day_of_week_factor : ℚ
  lead_time_factor : ℚ
  competitor_factor : ℚ
  event_factor : ℚ
deriving DecidableEq

/-- The dict returned by calculate_demand_forecast. -/
structure ForecastResult where
  room_type : String
  target_date : ℤ
  forecasted_demand : ℚ
  components : ForecastComponents
  confidence : ℚ
  model_used : String
deriving DecidableEq

/-- The dict returned by update_forecast_accuracy when a forecast exists. -/
structure AccuracyResult where
  room_type : String
  date : ℤ
  predicted_demand : ℚ
  actual_occupancy : ℚ
  absolute_error : ℚ
  percentage_error : ℚ
  accuracy_score : ℚ
deriving DecidableEq

/-- Revenue impact sub-dict of a scenario. -/
structure RevenueImpact where
  base_revenue : ℚ
  scenario_revenue : ℚ
  revenue_difference : ℚ
  percentage_impact : ℚ
deriving DecidableEq

/-- One generated scenario (a value of the scenario_results dict). -/
structure ScenarioCase where
  demand : ℚ
  probability : ℚ
  description : String
  revenue_impact : RevenueImpact
deriving DecidableEq

/-- The dict returned by generate_demand_scenarios for the default scenario
    list, whose keys are exactly low, base and high. -/
structure ScenarioSet where
  room_type : String
  target_date : ℤ
  base_forecast : ℚ
  low : ScenarioCase
  base : ScenarioCase
  high : ScenarioCase
deriving DecidableEq

/-- Ordinary least squares slope of values against their indices 0, 1, …,
    exactly what sklearn's LinearRegression fits on a single feature. The
    denominator is positive whenever at least two points exist. -/
def olsSlope (ys : List ℚ) : ℚ :=
  let xs : List ℚ := (List.range ys.length).map (fun (i : ℕ) => (i : ℚ))
  let xbar := mean xs
  let ybar := mean ys
  let sxy := ((xs.zip ys).map (fun p => (p.1 - xbar) * (p.2 - ybar))).sum
  let sxx := (xs.map (fun x => (x - xbar) ^ 2)).sum
  sxy / sxx

/-- Feature vector used by the ML path: weekday, month, day of month, days
    from today. -/
def feature_vector (cal : Calendar) (today d : ℤ) : List ℚ :=
  [(weekday d : ℚ), (cal.month d : ℚ), (cal.dayOfMonth d : ℚ),
   ((d - today : ℤ) : ℚ)]

namespace ForecastingEngine

/-- Method _get_historical_bookings: filter bookings with checkin inside the
    lookback window, then walk every day from start to end inclusive,
    producing one entry per day; a day with no bookings gets count 0. The
    source groups the filtered bookings into a date-keyed dict first; counting
    the filtered list per day is the same multiset of counts. -/
def _get_historical_bookings (e : ForecastingEngine) (room_type : String) :
    List OccEntry :=
  let end_date := e.today
  let start_date := e.today - e.lookback_days
  let bookings := e.store.bookings.filter (fun b =>
    b.room_type == room_type && decide (start_date ≤ b.checkin) &&
      decide (b.checkin ≤ end_date))
  let total_rooms :=
    (e.store.inventory.filter (fun i => i.room_type == room_type)).length
  (List.range (e.lookback_days + 1)).map (fun (i : ℕ) =>
    let current_date := start_date + (i : ℤ)
    let bookings_count :=
      (bookings.filter (fun b => b.checkin == current_date)).length
    { date := current_date,
      occupancy := (bookings_count : ℚ) / ((max total_rooms 1 : ℕ) : ℚ),
      bookings := bookings_count })

/-- Method _calculate_seasonality: mean occupancy of the entries sharing the
    target month over the overall mean (floored at 0.01), 1.0 when the series
    is empty or no entry has the target month. -/
def _calculate_seasonality (e : ForecastingEngine) (target_date : ℤ)
    (historical_data : List OccEntry) : ℚ :=
  if historical_data = [] then 1
  else
    let month_occ := (historical_data.filter (fun dp =>
      e.cal.month dp.date == e.cal.month target_date)).map (fun dp => dp.occupancy)
    if month_occ ≠ [] then
      mean month_occ / max (mean (historical_data.map (fun dp => dp.occupancy))) 0.01
    else 1

/-- Method _calculate_trend: 1 + 10 × OLS slope, clipped to [0.8, 1.2], with
    fewer than 7 points 1.0. The try/except around the sklearn fit cannot fail
    in exact arithmetic, so its except branch (returning 1.0) is not
    represented. -/
def _calculate_trend (historical_data : List OccEntry) : ℚ :=
  if historical_data.length < 7 then 1
  else clip (1 + olsSlope (historical_data.map (fun dp => dp.occupancy)) * 10)
    0.8 1.2

/-- Method _calculate_dow_factor: mean occupancy of the entries sharing the
    target weekday over the overall mean (floored at 0.01). -/
def _calculate_dow_factor (target_date : ℤ)
    (historical_data : List OccEntry) : ℚ :=
  if historical_data = [] then 1
  else
    let dow_occ := (historical_data.filter (fun dp =>
      weekday dp.date == weekday target_date)).map (fun dp => dp.occupancy)
    if dow_occ ≠ [] then
      mean dow_occ / max (mean (historical_data.map (fun dp => dp.occupancy))) 0.01
    else 1

/-- Method _calculate_lead_time_impact: 1.1 for the past or same day; else
    compare the lead time to the mean historical lead time of bookings created
    in the last 60 days. -/
def _calculate_lead_time_impact (e : ForecastingEngine) (room_type : String)
    (target_date : ℤ) : ℚ :=
  let lead_time_days := target_date - e.today
  if lead_time_days ≤ 0 then 1.1
  else
    let bookings := e.store.bookings.filter (fun b =>
      b.room_type == room_type && decide (e.today - 60 ≤ b.created_at))
    let historical_lead_times : List ℚ :=
      bookings.map (fun b => ((b.checkin - b.created_at : ℤ) : ℚ))
    if historical_lead_times ≠ [] then
      let avg_lead_time := mean historical_lead_times
      if (lead_time_days : ℚ) < avg_lead_time * 0.5 then 1.05
      else if avg_lead_time * 2 < (lead_time_days : ℚ) then 0.95
      else 1
    else 1

/-- Method _get_competitor_impact: with no competitor rows for the date, 1.0;
    with an unknown room type, 1; else the np.mean of the rates of ALL
    matching rows (the availability flag is not consulted) over the room
    type's base rate, mapped through the 1.1 / 0.9 thresholds. ℚ division is
    total; a stored base rate of exactly 0, where Python would raise
    ZeroDivisionError, is treated as excluded configuration. -/
def _get_competitor_impact (e : ForecastingEngine) (room_type : String)
    (target_date : ℤ) : ℚ :=
  let competitor_rates := e.store.competitor_rates.filter (fun c =>
    c.room_type == room_type && c.date == target_date)
  if competitor_rates = [] then 1
  else
    match e.store.room_types.find? (fun r => r.name == room_type) with
    | none => 1
    | some our_base_rate =>
      let competitor_avg := mean (competitor_rates.map (fun c => c.rate))
      let price_rel := competitor_avg / our_base_rate.base_rate
      if 1.1 < price_rel then 1.05
      else if price_rel < 0.9 then 0.95
      else 1

/-- Method _get_event_impact: the stored multiplier capped at 1.5, else 1.0. -/
def _get_event_impact (e : ForecastingEngine) (target_date : ℤ) : ℚ :=
  match e.store.events.find? (fun v => v.date == target_date) with
  | some event => min event.multiplier 1.5
  | none => 1

/-- Method _exponential_smoothing_forecast: left-to-right exponential
    smoothing seeded with the first occupancy, 0.75 on an empty series. -/
def _exponential_smoothing_forecast (e : ForecastingEngine)
    (historical_data : List OccEntry) : ℚ :=
  match historical_data.map (fun dp => dp.occupancy) with
  | [] => 0.75
  | v :: vs => vs.foldl
      (fun smoothed value =>
        e.smoothing_alpha * value + (1 - e.smoothing_alpha) * smoothed) v

/-- Method _ml_demand_forecast. The RandomForestRegressor fit/predict pair is
    modelled by the engine's mlPredict field (features, targets, query point ↦
    prediction); its none result models the except branch, which degrades to
    exponential smoothing. The prediction is clipped to [0, 1]. The source's
    unused room_type parameter is dropped. -/
def _ml_demand_forecast (e : ForecastingEngine) (target_date : ℤ)
    (historical_data : List OccEntry) : ℚ :=
  if historical_data.length < 30 then 0.75
  else
    let train := historical_data.take (historical_data.length - 7)
    let features := train.map (fun dp => feature_vector e.cal e.today dp.date)
    let targets := train.map (fun dp => dp.occupancy)
    if features.length < 10 then 0.75
    else
      match e.mlPredict features targets
          (feature_vector e.cal e.today target_date) with
      | some prediction => clip prediction 0 1
      | none => e._exponential_smoothing_forecast historical_data

/-- Method _fallback_forecast: baseline 0.75, multiplied by 1.1 on a weekend
    (weekday ≥ 5), confidence 0.5, model tag "fallback". -/
def _fallback_forecast (room_type : String) (target_date : ℤ) :
    ForecastResult :=
  let baseline_demand : ℚ := if 5 ≤ weekday target_date then 0.75 * 1.1 else 0.75
  { room_type := room_type, target_date := target_date,
    forecasted_demand := baseline_demand,
    components := { base_demand := baseline_demand,
                    seasonality_factor := 1, trend_factor := 1,
                    day_of_week_factor :=
                      if 5 ≤ weekday target_date then 1.1 else 1,
                    lead_time_factor := 1, competitor_factor := 1,
                    event_factor := 1 },
    confidence := 0.5, model_used := "fallback" }

/-- Method _calculate_confidence: 0.3 under 7 points, else
    max(1 − min(2·variance, 0.7), 0.3). The source's unused forecast parameter
    is dropped. -/
def _calculate_confidence (historical_data : List OccEntry) : ℚ :=
  if historical_data.length < 7 then 0.3
  else
    max (1 - min (variance (historical_data.map (fun dp => dp.occupancy)) * 2)
      0.7) 0.3

/-- Method calculate_demand_forecast: fallback under 14 points, else the
    six-factor composition clipped to [0, 1]. -/
def calculate_demand_forecast (e : ForecastingEngine) (room_type : String)
    (target_date : ℤ) (use_ml : Bool) : ForecastResult :=
  let historical_data := e._get_historical_bookings room_type
  if historical_data.length < 14 then _fallback_forecast room_type target_date
  else
    let seasonality_factor := e._calculate_seasonality target_date historical_data
    let trend_factor := _calculate_trend historical_data
    let day_of_week_factor := _calculate_dow_factor target_date historical_data
    let lead_time_factor := e._calculate_lead_time_impact room_type target_date
    let competitor_factor := e._get_competitor_impact room_type target_date
    let event_factor := e._get_event_impact target_date
    let base_demand :=
      if use_ml ∧ 30 ≤ historical_data.length then
        e._ml_demand_forecast target_date historical_data
      else e._exponential_smoothing_forecast historical_data
    { room_type := room_type, target_date := target_date,
      forecasted_demand := clip (base_demand * seasonality_factor *
        trend_factor * day_of_week_factor * competitor_factor * event_factor *
        lead_time_factor) 0 1,
      components := { base_demand := base_demand,
                      seasonality_factor := seasonality_factor,
                      trend_factor := trend_factor,
                      day_of_week_factor := day_of_week_factor,
                      lead_time_factor := lead_time_factor,
                      competitor_factor := competitor_factor,
                      event_factor := event_factor },
      confidence := _calculate_confidence historical_data,
      model_used := if use_ml ∧ 30 ≤ historical_data.length then "ml"
        else "exponential_smoothing" }

/-- Pick of the matching ForecastData row with the greatest created_at
    (order_by(created_at.desc()).first()); the earlier row wins ties. -/
def latest_forecast (rows : List ForecastData) : Option ForecastData :=
  rows.foldl (fun acc r => match acc with
    | none => some r
    | some b => if b.created_at < r.created_at then some r else some b) none

/-- Method update_forecast_accuracy: realized occupancy over max(inventory, 1)
    against the latest stored forecast; None when no forecast row exists. -/
def update_forecast_accuracy (e : ForecastingEngine) (room_type : String)
    (actual_date : ℤ) : Option AccuracyResult :=
  let actual_bookings := (e.store.bookings.filter (fun b =>
    b.room_type == room_type && b.checkin == actual_date)).length
  let total_inventory :=
    (e.store.inventory.filter (fun i => i.room_type == room_type)).length
  let actual_occupancy := (actual_bookings : ℚ) / ((max total_inventory 1 : ℕ) : ℚ)
  match latest_forecast (e.store.forecasts.filter (fun f =>
    f.room_type == room_type && f.date == actual_date)) with
  | some forecast_record =>
    let predicted_demand := forecast_record.forecasted_demand
    let error := |predicted_demand - actual_occupancy|
    let error_pct := error / max actual_occupancy 0.01 * 100
    some { room_type := room_type, date := actual_date,
           predicted_demand := predicted_demand,
           actual_occupancy := actual_occupancy, absolute_error := error,
           percentage_error := error_pct,
           accuracy_score := max 0 (100 - error_pct) }
  | none => none

/-- Method _calculate_revenue_impact: revenue = demand × rooms × base rate,
    with base rate defaulting to 300 for an unknown room type. -/
def _calculate_revenue_impact (e : ForecastingEngine) (room_type : String)
    (scenario_demand base_demand : ℚ) : RevenueImpact :=
  let base_rate := match e.store.room_types.find? (fun r => r.name == room_type) with
    | some r => r.base_rate
    | none => 300
  let total_rooms :=
    ((e.store.inventory.filter (fun i => i.room_type == room_type)).length : ℚ)
  let base_revenue := base_demand * total_rooms * base_rate
  let scenario_revenue := scenario_demand * total_rooms * base_rate
  { base_revenue := base_revenue, scenario_revenue := scenario_revenue,
    revenue_difference := scenario_revenue - base_revenue,
    percentage_impact := (scenario_revenue - base_revenue) / max base_revenue 1 * 100 }

/-- Method generate_demand_scenarios for the default scenario list
    [low, base, high]: each case caps its demand at 1.0 in the dict but passes
    the uncapped demand to the revenue impact, exactly as the source does. The
    base forecast is computed with the default use_ml=True. -/
def generate_demand_scenarios (e : ForecastingEngine) (room_type : String)
    (target_date : ℤ) : ScenarioSet :=
  let base_demand :=
    (e.calculate_demand_forecast room_type target_date true).forecasted_demand
  { room_type := room_type, target_date := target_date,
    base_forecast := base_demand,
    low := { demand := min (base_demand * 0.8) 1, probability := 0.2,
             description := "Market downturn, increased competition",
             revenue_impact := e._calculate_revenue_impact room_type
               (base_demand * 0.8) base_demand },
    base := { demand := min base_demand 1, probability := 0.6,
              description := "Expected market conditions",
              revenue_impact := e._calculate_revenue_impact room_type
                base_demand base_demand },
    high := { demand := min (base_demand * 1.3) 1, probability := 0.2,
              description := "Strong market, limited competition",
              revenue_impact := e._calculate_revenue_impact room_type
                (base_demand * 1.3) base_demand } }

end ForecastingEngine

/-! Competitor-factor specifications for comparison with the code.

The first follows the specification's words for the demand-side competitor
factor ("ratio of the median available competitor rate on target_date to the
category's base rate; > 1.10 → 1.05; < 0.90 → 0.95; else 1; defaults to 1
with no competitor rows"); the second is that statement amended to what the
code computes (mean of all rows, availability ignored). -/

/-- Competitor demand factor as the specification words it: MEDIAN of the
    AVAILABLE competitor rates over the base rate, with the 1.10 / 0.90
    thresholds, 1.0 with no rows (and 1.0 for an unknown room type, where the
    code cannot form the ratio either). -/
def competitor_impact_claimed (e : ForecastingEngine) (room_type : String)
    (target_date : ℤ) : ℚ :=
  let rows := e.store.competitor_rates.filter (fun c =>
    c.room_type == room_type && c.date == target_date)
  if rows = [] then 1
  else
    match e.store.room_types.find? (fun r => r.name == room_type) with
    | none => 1
    | some rt =>
      let available := (rows.filter (fun c => c.availability)).map (fun c => c.rate)
      let q := median available / rt.base_rate
      if 1.1 < q then 1.05 else if q < 0.9 then 0.95 else 1

/-- Competitor demand factor as amended: the arithmetic MEAN of the rates of
    ALL competitor rows for the date (the availability flag is not consulted)
    over the base rate, with the same thresholds and defaults. -/
def competitor_impact_amended (e : ForecastingEngine) (room_type : String)
    (target_date : ℤ) : ℚ :=
  let rows := e.store.competitor_rates.filter (fun c =>
    c.room_type == room_type && c.date == target_date)
  if rows = [] then 1
  else
    match e.store.room_types.find? (fun r => r.name == room_type) with
    | none => 1
    | some rt =>
      let q := mean (rows.map (fun c => c.rate)) / rt.base_rate
      if 1.1 < q then 1.05 else if q < 0.9 then 0.95 else 1

/-! Concrete stores and engines used by counterexamples and witnesses. -/

/-- Store with no rows at all. -/
def emptyStore : Store :=
  { room_types := [], bookings := [], inventory := [], competitor_rates := [],
    events := [], forecasts := [] }

/-- Trivial calendar decomposition for concrete witnesses. -/
def trivialCalendar : Calendar := { month := fun _ => 1, dayOfMonth := fun _ => 1 }

/-- Predictor whose fit always fails, degrading to exponential smoothing. -/
def mlPredictNone : List (List ℚ) → List ℚ → List ℚ → Option ℚ :=
  fun _ _ _ => none

/-- Pricing engine over the empty store with the default coefficients. -/
def pricingEngineEmpty : PricingEngine := { store := emptyStore, today := 100 }

/-- Store exhibiting the floor undershoot of the rounded final price: a base
    rate of 280.03 makes the floor 196.021, a stored forecast of 0 and a very
    cheap available competitor rate push the raw price under the floor, and
    rounding the clipped price to 2 decimals lands at 196.02 < 196.021. -/
def storeC1 : Store :=
  { room_types := [{ name := "Deluxe", base_rate := 280.03 }],
    bookings := [], inventory := [],
    competitor_rates := [{ room_type := "Deluxe", date := 100, rate := 0.01,
                           availability := true }],
    events := [],
    forecasts := [{ room_type := "Deluxe", date := 100, forecasted_demand := 0,
                    created_at := 0 }] }

/-- Pricing engine over storeC1, priced on the same day (time factor 0). -/
def pricingEngineC1 : PricingEngine := { store := storeC1, today := 100 }

/-- Forecasting engine over the empty store with the default parameters. -/
def forecastEngineDefault : ForecastingEngine :=
  { store := emptyStore, today := 100, cal := trivialCalendar,
    mlPredict := mlPredictNone }

/-- Forecasting engine whose lookback window is 5 days, so that its occupancy
    series has 6 < 14 entries and the fallback branch is reachable. -/
def forecastEngineSmall : ForecastingEngine :=
  { store := emptyStore, today := 100, cal := trivialCalendar,
    mlPredict := mlPredictNone, lookback_days := 5 }

/-- Store with a booking and a stored forecast but an empty inventory table:
    the occupancy denominator max(inventory, 1) degrades to 1. -/
def storeC4 : Store :=
  { room_types := [{ name := "Deluxe", base_rate := 280 }],
    bookings := [{ room_type := "Deluxe", checkin := 100, created_at := 95 }],
    inventory := [],
    competitor_rates := [], events := [],
    forecasts := [{ room_type := "Deluxe", date := 100,
                    forecasted_demand := 0.8, created_at := 99 }] }

/-- Forecasting engine over storeC4. -/
def forecastEngineC4 : ForecastingEngine :=
  { store := storeC4, today := 100, cal := trivialCalendar,
    mlPredict := mlPredictNone }

/-- Store on which the mean of all competitor rates (400 pulled up by one
    outlier) and the median of the available ones (100, parity) disagree on
    which side of the thresholds the ratio falls. -/
def storeC6 : Store :=
  { room_types := [{ name := "Deluxe", base_rate := 100 }],
    bookings := [], inventory := [],
    competitor_rates :=
      [{ room_type := "Deluxe", date := 100, rate := 100, availability := true },
       { room_type := "Deluxe", date := 100, rate := 100, availability := true },
       { room_type := "Deluxe", date := 100, rate := 400, availability := true }],
    events := [], forecasts := [] }

/-- Forecasting engine over storeC6. -/
def forecastEngineC6 : ForecastingEngine :=
  { store := storeC6, today := 100, cal := trivialCalendar,
    mlPredict := mlPredictNone }

/-! Helper lemmas. -/

theorem clip_mem (x lo hi : ℚ) (h : lo ≤ hi) :
    lo ≤ clip x lo hi ∧ clip x lo hi ≤ hi :=
  ⟨le_min h (le_max_right x lo), min_le_left hi (max x lo)⟩

theorem roundHalfEven_bounds (x : ℚ) :
    x - 1 / 2 ≤ (roundHalfEven x : ℚ) ∧ (roundHalfEven x : ℚ) ≤ x + 1 / 2 := by
  have h1 : ((Int.floor x : ℤ) : ℚ) ≤ x := Int.floor_le x
  have h2 : x < ((Int.floor x : ℤ) : ℚ) + 1 := Int.lt_floor_add_one x
  unfold roundHalfEven
  split_ifs with ha hb hc <;> constructor <;> push_cast <;> linarith

theorem roundTo_two_bounds (x : ℚ) :
    x - 1 / 200 ≤ roundTo 2 x ∧ roundTo 2 x ≤ x + 1 / 200 := by
  obtain ⟨h1, h2⟩ := roundHalfEven_bounds (x * 10 ^ 2)
  unfold roundTo
  norm_num at h1 h2 ⊢
  constructor <;> linarith

/-- Branch lemma: with fewer than 14 series entries, calculate_demand_forecast
    returns the fallback forecast. -/
theorem calculate_demand_forecast_of_short (e : ForecastingEngine)
    (room_type : String) (target_date : ℤ) (use_ml : Bool)
    (h : (e._get_historical_bookings room_type).length < 14) :
    e.calculate_demand_forecast room_type target_date use_ml =
      ForecastingEngine._fallback_forecast room_type target_date := by
  simp [ForecastingEngine.calculate_demand_forecast, h]

/-- The forecasted demand always lies in [0, 1]. -/
theorem forecast_demand_mem (e : ForecastingEngine) (room_type : String)
    (target_date : ℤ) (use_ml : Bool) :
    0 ≤ (e.calculate_demand_forecast room_type target_date use_ml).forecasted_demand ∧
      (e.calculate_demand_forecast room_type target_date use_ml).forecasted_demand ≤ 1 := by
  by_cases h : (e._get_historical_bookings room_type).length < 14
  · rw [calculate_demand_forecast_of_short e room_type target_date use_ml h]
    simp only [ForecastingEngine._fallback_forecast]
    split_ifs <;> norm_num
  · constructor
    · simp only [ForecastingEngine.calculate_demand_forecast, if_neg h]
      exact (clip_mem _ 0 1 (by norm_num)).1
    · simp only [ForecastingEngine.calculate_demand_forecast, if_neg h]
      exact (clip_mem _ 0 1 (by norm_num)).2

/-- The occupancy series has exactly lookback_days + 1 entries, whatever the
    stored bookings are. -/
theorem _get_historical_bookings_length (e : ForecastingEngine)
    (room_type : String) :
    (e._get_historical_bookings room_type).length = e.lookback_days + 1 := by
  simp only [ForecastingEngine._get_historical_bookings]
  rw [List.length_map, List.length_range]

/-- The k-th entry of the occupancy series is dated start + k. -/
theorem _get_historical_bookings_date (e : ForecastingEngine)
    (room_type : String) (k : ℕ)
    (hk : k < (e._get_historical_bookings room_type).length) :
    (e._get_historical_bookings room_type)[k].date
      = e.today - e.lookback_days + k := by
  simp only [ForecastingEngine._get_historical_bookings] at hk ⊢
  simp [List.getElem_map, List.getElem_range]

/-- The k-th occupancy is the k-th booking count over max(inventory, 1). -/
theorem _get_historical_bookings_occupancy (e : ForecastingEngine)
    (room_type : String) (k : ℕ)
    (hk : k < (e._get_historical_bookings room_type).length) :
    (e._get_historical_bookings room_type)[k].occupancy
      = ((e._get_historical_bookings room_type)[k].bookings : ℚ) /
        ((max (e.store.inventory.filter
            (fun i => i.room_type == room_type)).length 1 : ℕ) : ℚ) := by
  simp only [ForecastingEngine._get_historical_bookings] at hk ⊢
  simp [List.getElem_map, List.getElem_range]

/-- A day on which no stored booking of the category checks in contributes a
    zero booking count. -/
theorem _get_historical_bookings_count_zero (e : ForecastingEngine)
    (room_type : String) (k : ℕ)
    (hk : k < (e._get_historical_bookings room_type).length)
    (hno : ∀ b ∈ e.store.bookings, b.room_type = room_type →
      b.checkin ≠ e.today - e.lookback_days + k) :
    (e._get_historical_bookings room_type)[k].bookings = 0 := by
  simp only [ForecastingEngine._get_historical_bookings] at hk ⊢
  simp only [List.getElem_map, List.getElem_range]
  rw [List.length_eq_zero, List.filter_eq_nil_iff]
  intro b hb
  rcases List.mem_filter.mp hb with ⟨hbmem, hbcond⟩
  simp only [Bool.and_eq_true, beq_iff_eq, decide_eq_true_eq] at hbcond
  simp only [beq_iff_eq]
  exact hno b hbmem hbcond.1.1

/-! Claim theorems. -/

/-- C2: for every room category, target date and use-model flag, the
    forecasted_demand field of the record returned by calculate_demand_forecast
    lies in [0, 1], on the normal path and on the fallback path alike. -/
theorem C2_forecast_demand_in_unit_interval (e : ForecastingEngine)
    (room_type : String) (target_date : ℤ) (use_ml : Bool) :
    0 ≤ (e.calculate_demand_forecast room_type target_date use_ml).forecasted_demand ∧
      (e.calculate_demand_forecast room_type target_date use_ml).forecasted_demand ≤ 1 :=
  forecast_demand_mem e room_type target_date use_ml

/-- C3: whenever the occupancy history of a room category has fewer than 14
    points, calculate_demand_forecast returns the fallback forecast: demand
    0.75, multiplied by 1.1 when the target date is a weekend, model_used
    "fallback" and confidence 0.5. -/
theorem C3_insufficient_data_fallback (e : ForecastingEngine)
    (room_type : String) (target_date : ℤ) (use_ml : Bool)
    (h : (e._get_historical_bookings room_type).length < 14) :
    (e.calculate_demand_forecast room_type target_date use_ml).forecasted_demand
        = (if 5 ≤ weekday target_date then 0.75 * 1.1 else 0.75) ∧
      (e.calculate_demand_forecast room_type target_date use_ml).model_used
        = "fallback" ∧
      (e.calculate_demand_forecast room_type target_date use_ml).confidence
        = 0.5 := by
  rw [calculate_demand_forecast_of_short e room_type target_date use_ml h]
  exact ⟨rfl, rfl, rfl⟩

/-- Witness for C3 at a concrete 5-day-lookback engine (6 < 14 entries). -/
theorem C3_witness :
    (forecastEngineSmall._get_historical_bookings "Deluxe").length < 14 ∧
      ((forecastEngineSmall.calculate_demand_forecast "Deluxe" 100 true).forecasted_demand
          = (if 5 ≤ weekday 100 then 0.75 * 1.1 else 0.75) ∧
        (forecastEngineSmall.calculate_demand_forecast "Deluxe" 100 true).model_used
          = "fallback" ∧
        (forecastEngineSmall.calculate_demand_forecast "Deluxe" 100 true).confidence
          = 0.5) :=
  ⟨by rw [_get_historical_bookings_length]; norm_num [forecastEngineSmall],
   C3_insufficient_data_fallback forecastEngineSmall "Deluxe" 100 true
     (by rw [_get_historical_bookings_length]; norm_num [forecastEngineSmall])⟩

/-- C8: scenario generation produces low = base demand × 0.8 with probability
    0.2, base = the unchanged demand with probability 0.6, high = base demand
    × 1.3 capped at 1.0 with probability 0.2, and the probabilities sum to 1. -/
theorem C8_scenario_structure (e : ForecastingEngine) (room_type : String)
    (target_date : ℤ) :
    (e.generate_demand_scenarios room_type target_date).low.demand
        = (e.calculate_demand_forecast room_type target_date true).forecasted_demand * 0.8 ∧
      (e.generate_demand_scenarios room_type target_date).low.probability = 0.2 ∧
      (e.generate_demand_scenarios room_type target_date).base.demand
        = (e.calculate_demand_forecast room_type target_date true).forecasted_demand ∧
      (e.generate_demand_scenarios room_type target_date).base.probability = 0.6 ∧
      (e.generate_demand_scenarios room_type target_date).high.demand
        = min ((e.calculate_demand_forecast room_type target_date true).forecasted_demand * 1.3) 1 ∧
      (e.generate_demand_scenarios room_type target_date).high.probability = 0.2 ∧
      (e.generate_demand_scenarios room_type target_date).low.probability +
          (e.generate_demand_scenarios room_type target_date).base.probability +
          (e.generate_demand_scenarios room_type target_date).high.probability = 1 := by
  obtain ⟨h0, h1⟩ := forecast_demand_mem e room_type target_date true
  refine ⟨?_, rfl, ?_, rfl, rfl, rfl,
    by norm_num [ForecastingEngine.generate_demand_scenarios]⟩
  · show min ((e.calculate_demand_forecast room_type target_date true).forecasted_demand * 0.8) 1
        = (e.calculate_demand_forecast room_type target_date true).forecasted_demand * 0.8
    exact min_eq_left (by nlinarith)
  · show min (e.calculate_demand_forecast room_type target_date true).forecasted_demand 1
        = (e.calculate_demand_forecast room_type target_date true).forecasted_demand
    exact min_eq_left h1

/-- C10: for every room category and booking store, the occupancy series built
    with the default 90-day lookback has exactly one entry per day of the
    window (91 entries, entry k dated today − 90 + k); a day on which no
    stored booking of the category checks in has occupancy 0.0; consequently
    the length is never below 14. -/
theorem C10_occupancy_series (e : ForecastingEngine) (room_type : String)
    (h : e.lookback_days = 90) :
    (e._get_historical_bookings room_type).length = 91 ∧
      (∀ k (hk : k < (e._get_historical_bookings room_type).length),
        (e._get_historical_bookings room_type)[k].date = e.today - 90 + k ∧
          ((∀ b ∈ e.store.bookings, b.room_type = room_type →
              b.checkin ≠ e.today - 90 + k) →
            (e._get_historical_bookings room_type)[k].occupancy = 0)) ∧
      14 ≤ (e._get_historical_bookings room_type).length := by
  have hlen := _get_historical_bookings_length e room_type
  rw [h] at hlen
  refine ⟨hlen, ?_, by rw [hlen]; norm_num⟩
  intro k hk
  have hdate := _get_historical_bookings_date e room_type k hk
  rw [h] at hdate
  push_cast at hdate
  refine ⟨hdate, fun hno => ?_⟩
  have hcnt : (e._get_historical_bookings room_type)[k].bookings = 0 := by
    refine _get_historical_bookings_count_zero e room_type k hk ?_
    rw [h]
    push_cast
    exact hno
  rw [_get_historical_bookings_occupancy e room_type k hk, hcnt]
  norm_num

/-- Witness for C10 at the concrete default-lookback engine. -/
theorem C10_witness :
    forecastEngineDefault.lookback_days = 90 ∧
      ((forecastEngineDefault._get_historical_bookings "Deluxe").length = 91 ∧
        (∀ k (hk : k < (forecastEngineDefault._get_historical_bookings "Deluxe").length),
          (forecastEngineDefault._get_historical_bookings "Deluxe")[k].date
              = forecastEngineDefault.today - 90 + k ∧
            ((∀ b ∈ forecastEngineDefault.store.bookings, b.room_type = "Deluxe" →
                b.checkin ≠ forecastEngineDefault.today - 90 + k) →
              (forecastEngineDefault._get_historical_bookings "Deluxe")[k].occupancy = 0)) ∧
        14 ≤ (forecastEngineDefault._get_historical_bookings "Deluxe").length) :=
  ⟨rfl, C10_occupancy_series forecastEngineDefault "Deluxe" rfl⟩

/-- C4 counterexample: on a store whose inventory table has no row for the
    category, the occupancy series and accuracy tracking return ordinary
    results (with denominator clamped to 1) instead of failing with a
    ConfigurationError, and the forecast runs its normal path. -/
theorem C4_counterexample :
    (storeC4.inventory.filter (fun i => i.room_type == "Deluxe")).length = 0 ∧
      (forecastEngineC4._get_historical_bookings "Deluxe")[90]? =
        some { date := 100, occupancy := 1, bookings := 1 } ∧
      forecastEngineC4.update_forecast_accuracy "Deluxe" 100 =
        some { room_type := "Deluxe", date := 100, predicted_demand := 0.8,
               actual_occupancy := 1, absolute_error := 1 / 5,
               percentage_error := 20, accuracy_score := 80 } ∧
      (forecastEngineC4.calculate_demand_forecast "Deluxe" 101 false).model_used
        = "exponential_smoothing" := by
  refine ⟨rfl, ?_, ?_, ?_⟩
  · simp only [ForecastingEngine._get_historical_bookings, forecastEngineC4,
      storeC4]
    rw [List.getElem?_map]
    norm_num [List.getElem?_range, List.filter, OccEntry.mk.injEq]
  · simp only [ForecastingEngine.update_forecast_accuracy,
      ForecastingEngine.latest_forecast, forecastEngineC4, storeC4]
    norm_num [List.filter, AccuracyResult.mk.injEq, abs_of_nonneg,
      max_eq_right]
  · have hlen := _get_historical_bookings_length forecastEngineC4 "Deluxe"
    simp only [ForecastingEngine.calculate_demand_forecast]
    rw [if_neg (by rw [hlen]; norm_num [forecastEngineC4])]
    simp

/-- C4 (amended): a category with zero inventory does not make the occupancy
    computations fail; the denominator max(inventory, 1) degrades to 1, so
    every series occupancy equals the raw booking count of its day, and
    accuracy tracking's realized occupancy equals the raw booking count of the
    requested day. -/
theorem C4_amended (e : ForecastingEngine) (room_type : String)
    (actual_date : ℤ)
    (h : (e.store.inventory.filter (fun i => i.room_type == room_type)).length = 0) :
    (∀ k (hk : k < (e._get_historical_bookings room_type).length),
      (e._get_historical_bookings room_type)[k].occupancy
        = ((e._get_historical_bookings room_type)[k].bookings : ℚ)) ∧
      (∀ r, e.update_forecast_accuracy room_type actual_date = some r →
        r.actual_occupancy = ((e.store.bookings.filter (fun b =>
          b.room_type == room_type && b.checkin == actual_date)).length : ℚ)) := by
  constructor
  · intro k hk
    rw [_get_historical_bookings_occupancy e room_type k hk, h]
    norm_num
  · intro r hr
    simp only [ForecastingEngine.update_forecast_accuracy, h] at hr
    split at hr
    · rw [Option.some_inj] at hr
      subst hr
      norm_num
    · exact absurd hr (by simp)

/-- Witness for C4 (amended) at the zero-inventory store. -/
theorem C4_witness :
    (storeC4.inventory.filter (fun i => i.room_type == "Deluxe")).length = 0 ∧
      ((∀ k (hk : k < (forecastEngineC4._get_historical_bookings "Deluxe").length),
        (forecastEngineC4._get_historical_bookings "Deluxe")[k].occupancy
          = ((forecastEngineC4._get_historical_bookings "Deluxe")[k].bookings : ℚ)) ∧
        (∀ r, forecastEngineC4.update_forecast_accuracy "Deluxe" 100 = some r →
          r.actual_occupancy = ((storeC4.bookings.filter (fun b =>
            b.room_type == "Deluxe" && b.checkin == 100)).length : ℚ))) :=
  ⟨rfl, C4_amended forecastEngineC4 "Deluxe" 100 rfl⟩

/-- C1 counterexample: on storeC1 the returned final_price (the clipped price
    rounded to 2 decimals) is 196.02, strictly below the floor 196.021. -/
theorem C1_counterexample :
    (pricingEngineC1.calculate_dynamic_price "Deluxe" 100 none).1.final_price <
      (pricingEngineC1.calculate_dynamic_price "Deluxe" 100 none).1.floor := by
  have hbase : pricingEngineC1.get_base_rate "Deluxe" = 280.03 := rfl
  have hfd : pricingEngineC1.get_forecasted_demand "Deluxe" 100 = 0 := rfl
  have hci : pricingEngineC1.get_competitor_index "Deluxe" 100 = 1 / 28003 := by
    norm_num [PricingEngine.get_competitor_index, pricingEngineC1, storeC1,
      List.filter, median, sortQ, insertSorted, hbase, List.cons_ne_nil,
      PricingEngine.get_base_rate, List.find?]
  have hem : pricingEngineC1.get_event_multiplier 100 = 1 := rfl
  have htf : pricingEngineC1.calculate_time_factor 100 = 0 := rfl
  have hfp : (pricingEngineC1.price_calc "Deluxe" 100 none).final_price
      = clip (RMS.raw_price (pricingEngineC1.get_base_rate "Deluxe")
          (demand_factor pricingEngineC1.alpha pricingEngineC1.baseline_demand
            (pricingEngineC1.get_forecasted_demand "Deluxe" 100))
          (competitor_factor pricingEngineC1.beta
            (pricingEngineC1.get_competitor_index "Deluxe" 100))
          (event_factor pricingEngineC1.delta
            (pricingEngineC1.get_event_multiplier 100))
          (time_discount_factor pricingEngineC1.gamma
            (pricingEngineC1.calculate_time_factor 100)))
        (pricingEngineC1.get_base_rate "Deluxe" * 0.7)
        (pricingEngineC1.get_base_rate "Deluxe" * 1.5) := rfl
  have halpha : pricingEngineC1.alpha = 0.3 := rfl
  have hbeta : pricingEngineC1.beta = 0.25 := rfl
  have hgamma : pricingEngineC1.gamma = 0.02 := rfl
  have hdelta : pricingEngineC1.delta = 1 := rfl
  have hbl : pricingEngineC1.baseline_demand = 0.75 := rfl
  rw [hbase, hfd, hci, hem, htf, halpha, hbeta, hgamma, hdelta, hbl] at hfp
  have hval : (pricingEngineC1.price_calc "Deluxe" 100 none).final_price
      = 196.021 := by
    rw [hfp]
    norm_num [clip, RMS.raw_price, demand_factor, competitor_factor,
      event_factor, time_discount_factor, min_def, max_def]
  have hres : (pricingEngineC1.calculate_dynamic_price "Deluxe" 100 none).1.final_price
      = roundTo 2 (pricingEngineC1.price_calc "Deluxe" 100 none).final_price := rfl
  have hflr : (pricingEngineC1.calculate_dynamic_price "Deluxe" 100 none).1.floor
      = pricingEngineC1.get_base_rate "Deluxe" * 0.7 := rfl
  rw [hres, hval, hflr, hbase]
  norm_num [roundTo, roundHalfEven]

/-- C1 (amended): with a nonnegative base rate the exact clipped price (the
    final_price of lines 117-135 of pricing_engine.py, before the 2-decimal
    presentation rounding) lies within [floor, ceiling], with floor = 0.7 ×
    base_rate and ceiling = 1.5 × base_rate under the default configuration;
    the final_price field of the returned dict is that value rounded to 2
    decimals and hence lies within [floor − 0.005, ceiling + 0.005]. -/
theorem C1_amended (e : PricingEngine) (room_type : String) (target_date : ℤ)
    (params : Option OverrideParams) (h : 0 ≤ e.get_base_rate room_type) :
    (e.price_calc room_type target_date params).floor ≤
        (e.price_calc room_type target_date params).final_price ∧
      (e.price_calc room_type target_date params).final_price ≤
        (e.price_calc room_type target_date params).ceiling ∧
      (e.price_calc room_type target_date params).floor
        = 0.7 * e.get_base_rate room_type ∧
      (e.price_calc room_type target_date params).ceiling
        = 1.5 * e.get_base_rate room_type ∧
      (e.price_calc room_type target_date params).floor - 1 / 200 ≤
        (e.calculate_dynamic_price room_type target_date params).1.final_price ∧
      (e.calculate_dynamic_price room_type target_date params).1.final_price ≤
        (e.price_calc room_type target_date params).ceiling + 1 / 200 := by
  have hfl : (e.price_calc room_type target_date params).floor
      = e.get_base_rate room_type * 0.7 := rfl
  have hcl : (e.price_calc room_type target_date params).ceiling
      = e.get_base_rate room_type * 1.5 := rfl
  have hfc : (e.price_calc room_type target_date params).floor ≤
      (e.price_calc room_type target_date params).ceiling := by
    rw [hfl, hcl]
    nlinarith
  have hclip : (e.price_calc room_type target_date params).final_price
      = clip (e.price_calc room_type target_date params).raw_price
          (e.price_calc room_type target_date params).floor
          (e.price_calc room_type target_date params).ceiling := rfl
  obtain ⟨hlo, hhi⟩ := clip_mem (e.price_calc room_type target_date params).raw_price
    (e.price_calc room_type target_date params).floor
    (e.price_calc room_type target_date params).ceiling hfc
  rw [← hclip] at hlo hhi
  have hround : (e.calculate_dynamic_price room_type target_date params).1.final_price
      = roundTo 2 (e.price_calc room_type target_date params).final_price := rfl
  obtain ⟨hr1, hr2⟩ :=
    roundTo_two_bounds (e.price_calc room_type target_date params).final_price
  refine ⟨hlo, hhi, by rw [hfl]; ring, by rw [hcl]; ring, ?_, ?_⟩
  · rw [hround]
    linarith
  · rw [hround]
    linarith

/-- Witness for C1 (amended) at the empty store (default base rate 300). -/
theorem C1_witness :
    0 ≤ pricingEngineEmpty.get_base_rate "Suite" ∧
      ((pricingEngineEmpty.price_calc "Suite" 101 none).floor ≤
          (pricingEngineEmpty.price_calc "Suite" 101 none).final_price ∧
        (pricingEngineEmpty.price_calc "Suite" 101 none).final_price ≤
          (pricingEngineEmpty.price_calc "Suite" 101 none).ceiling ∧
        (pricingEngineEmpty.price_calc "Suite" 101 none).floor
          = 0.7 * pricingEngineEmpty.get_base_rate "Suite" ∧
        (pricingEngineEmpty.price_calc "Suite" 101 none).ceiling
          = 1.5 * pricingEngineEmpty.get_base_rate "Suite" ∧
        (pricingEngineEmpty.price_calc "Suite" 101 none).floor - 1 / 200 ≤
          (pricingEngineEmpty.calculate_dynamic_price "Suite" 101 none).1.final_price ∧
        (pricingEngineEmpty.calculate_dynamic_price "Suite" 101 none).1.final_price ≤
          (pricingEngineEmpty.price_calc "Suite" 101 none).ceiling + 1 / 200) :=
  ⟨(show (0 : ℚ) ≤ 300 by norm_num),
   C1_amended pricingEngineEmpty "Suite" 101 none (show (0 : ℚ) ≤ 300 by norm_num)⟩

/-- C5 counterexample: on the empty store the category lookup returns no row,
    yet get_base_rate substitutes the default base rate 300 and pricing
    proceeds with it instead of failing with NotFound. -/
theorem C5_counterexample :
    pricingEngineEmpty.store.room_types.find? (fun r => r.name == "Suite") = none ∧
      pricingEngineEmpty.get_base_rate "Suite" = 300 ∧
      (pricingEngineEmpty.calculate_dynamic_price "Suite" 101 none).1.base_rate
        = 300 :=
  ⟨rfl, rfl, rfl⟩

/-- C5 (amended): for a category name unknown to the store, get_base_rate
    substitutes the default base rate 300 (no NotFound error exists), and a
    pricing call proceeds, reporting base rate 300 with floor 300 × 0.7 and
    ceiling 300 × 1.5. -/
theorem C5_amended (e : PricingEngine) (room_type : String) (target_date : ℤ)
    (params : Option OverrideParams)
    (h : e.store.room_types.find? (fun r => r.name == room_type) = none) :
    e.get_base_rate room_type = 300 ∧
      (e.calculate_dynamic_price room_type target_date params).1.base_rate = 300 ∧
      (e.calculate_dynamic_price room_type target_date params).1.floor = 300 * 0.7 ∧
      (e.calculate_dynamic_price room_type target_date params).1.ceiling = 300 * 1.5 := by
  have hb : e.get_base_rate room_type = 300 := by
    unfold PricingEngine.get_base_rate
    rw [h]
  refine ⟨hb, ?_, ?_, ?_⟩ <;>
    simp [PricingEngine.calculate_dynamic_price, PricingEngine.price_calc,
      PricingEngine.get_floor_ceiling, hb]

/-- Witness for C5 (amended) at the empty store. -/
theorem C5_witness :
    pricingEngineEmpty.store.room_types.find? (fun r => r.name == "Club") = none ∧
      (pricingEngineEmpty.get_base_rate "Club" = 300 ∧
        (pricingEngineEmpty.calculate_dynamic_price "Club" 101 none).1.base_rate = 300 ∧
        (pricingEngineEmpty.calculate_dynamic_price "Club" 101 none).1.floor = 300 * 0.7 ∧
        (pricingEngineEmpty.calculate_dynamic_price "Club" 101 none).1.ceiling = 300 * 1.5) :=
  ⟨rfl, C5_amended pricingEngineEmpty "Club" 101 none rfl⟩

/-- C6 counterexample: on storeC6 the claimed factor (median of available
    rates: 100, parity, so 1.0) and the implemented factor (mean of all rows:
    200, ratio 2 > 1.1, so 1.05) disagree. -/
theorem C6_counterexample :
    forecastEngineC6._get_competitor_impact "Deluxe" 100 = 1.05 ∧
      competitor_impact_claimed forecastEngineC6 "Deluxe" 100 = 1 ∧
      forecastEngineC6._get_competitor_impact "Deluxe" 100 ≠
        competitor_impact_claimed forecastEngineC6 "Deluxe" 100 := by
  have h1 : forecastEngineC6._get_competitor_impact "Deluxe" 100 = 1.05 := by
    norm_num [ForecastingEngine._get_competitor_impact, forecastEngineC6,
      storeC6, List.filter, List.find?, mean, List.cons_ne_nil]
  have h2 : competitor_impact_claimed forecastEngineC6 "Deluxe" 100 = 1 := by
    norm_num [competitor_impact_claimed, forecastEngineC6, storeC6,
      List.filter, List.find?, median, sortQ, insertSorted, List.cons_ne_nil]
  exact ⟨h1, h2, by rw [h1, h2]; norm_num⟩

/-- C6 (amended): the forecast's competitor factor equals the specification
    restated with the arithmetic mean of ALL competitor rows (availability
    ignored) in place of the median of the available ones; thresholds and the
    no-rows default are as claimed. -/
theorem C6_amended (e : ForecastingEngine) (room_type : String)
    (target_date : ℤ) :
    e._get_competitor_impact room_type target_date =
      competitor_impact_amended e room_type target_date := rfl

/-- C7 counterexample: at base_rate = 0, with α = 1 > 0 and demands 0 < 1, the
    demand factor strictly increases but the raw price does not. -/
theorem C7_counterexample :
    (0 : ℚ) < 1 ∧
      demand_factor 1 0.75 0 < demand_factor 1 0.75 1 ∧
      ¬ (raw_price 0 (demand_factor 1 0.75 0) (competitor_factor 0.25 1)
            (event_factor 1 1) (time_discount_factor 0.02 0) <
          raw_price 0 (demand_factor 1 0.75 1) (competitor_factor 0.25 1)
            (event_factor 1 1) (time_discount_factor 0.02 0)) := by
  norm_num [demand_factor, raw_price, competitor_factor, event_factor,
    time_discount_factor]

/-- C7 (amended): with α > 0 and additionally a positive product of base rate,
    competitor factor, event factor and time discount factor, a strictly larger
    forecasted demand gives a strictly larger demand factor and a strictly
    larger raw price (the demand-factor half needs no positivity). -/
theorem C7_amended (base_rate competitor_index event_multiplier time_factor
    alpha beta gamma delta baseline_demand d1 d2 : ℚ)
    (halpha : 0 < alpha) (hd : d1 < d2)
    (hpos : 0 < base_rate * competitor_factor beta competitor_index *
      event_factor delta event_multiplier *
      time_discount_factor gamma time_factor) :
    demand_factor alpha baseline_demand d1 < demand_factor alpha baseline_demand d2 ∧
      raw_price base_rate (demand_factor alpha baseline_demand d1)
          (competitor_factor beta competitor_index)
          (event_factor delta event_multiplier)
          (time_discount_factor gamma time_factor) <
        raw_price base_rate (demand_factor alpha baseline_demand d2)
          (competitor_factor beta competitor_index)
          (event_factor delta event_multiplier)
          (time_discount_factor gamma time_factor) := by
  have hdf : demand_factor alpha baseline_demand d1 <
      demand_factor alpha baseline_demand d2 := by
    unfold demand_factor
    nlinarith
  refine ⟨hdf, ?_⟩
  have e1 : raw_price base_rate (demand_factor alpha baseline_demand d1)
      (competitor_factor beta competitor_index)
      (event_factor delta event_multiplier)
      (time_discount_factor gamma time_factor)
      = demand_factor alpha baseline_demand d1 *
        (base_rate * competitor_factor beta competitor_index *
          event_factor delta event_multiplier *
          time_discount_factor gamma time_factor) := by
    unfold raw_price
    ring
  have e2 : raw_price base_rate (demand_factor alpha baseline_demand d2)
      (competitor_factor beta competitor_index)
      (event_factor delta event_multiplier)
      (time_discount_factor gamma time_factor)
      = demand_factor alpha baseline_demand d2 *
        (base_rate * competitor_factor beta competitor_index *
          event_factor delta event_multiplier *
          time_discount_factor gamma time_factor) := by
    unfold raw_price
    ring
  rw [e1, e2]
  exact mul_lt_mul_of_pos_right hdf hpos

/-- Witness for C7 (amended) at the specification's worked example state. -/
theorem C7_witness :
    (0 : ℚ) < 0.3 ∧ (0.5 : ℚ) < 0.6 ∧
      0 < (280 : ℚ) * competitor_factor 0.25 1 * event_factor 1 1 *
        time_discount_factor 0.02 0 ∧
      (demand_factor 0.3 0.75 0.5 < demand_factor 0.3 0.75 0.6 ∧
        raw_price 280 (demand_factor 0.3 0.75 0.5) (competitor_factor 0.25 1)
            (event_factor 1 1) (time_discount_factor 0.02 0) <
          raw_price 280 (demand_factor 0.3 0.75 0.6) (competitor_factor 0.25 1)
            (event_factor 1 1) (time_discount_factor 0.02 0)) :=
  ⟨by norm_num, by norm_num,
   by norm_num [competitor_factor, event_factor, time_discount_factor],
   C7_amended 280 1 1 0 0.3 0.25 0.02 1 0.75 0.5 0.6 (by norm_num) (by norm_num)
     (by norm_num [competitor_factor, event_factor, time_discount_factor])⟩

/-- C9: calculate_dynamic_price with caller-supplied overrides leaves the
    engine state (in particular the stored default coefficients) unchanged,
    reports the effective per-call coefficients in its result, and a later
    call on the post-call engine behaves exactly as on the original engine. -/
theorem C9_overrides_do_not_mutate (e : PricingEngine) (room_type : String)
    (target_date : ℤ) (params : OverrideParams) (room_type2 : String)
    (target_date2 : ℤ) (params2 : Option OverrideParams) :
    (e.calculate_dynamic_price room_type target_date (some params)).2 = e ∧
      (e.calculate_dynamic_price room_type target_date (some params)).2.alpha = e.alpha ∧
      (e.calculate_dynamic_price room_type target_date (some params)).2.beta = e.beta ∧
      (e.calculate_dynamic_price room_type target_date (some params)).2.gamma = e.gamma ∧
      (e.calculate_dynamic_price room_type target_date (some params)).2.delta = e.delta ∧
      (e.calculate_dynamic_price room_type target_date (some params)).1.coefficients =
        { alpha := params.alpha.getD e.alpha, beta := params.beta.getD e.beta,
          gamma := params.gamma.getD e.gamma, delta := params.delta.getD e.delta } ∧
      ((e.calculate_dynamic_price room_type target_date (some params)).2).calculate_dynamic_price
          room_type2 target_date2 params2 =
        e.calculate_dynamic_price room_type2 target_date2 params2 :=
  ⟨rfl, rfl, rfl, rfl, rfl, rfl, rfl⟩

end RMS
